import Mathlib

/-!
Verification development for the 3d-face-particle-sim repository.

The definitions below are a shallow embedding of the particle pipeline:

* the surface resampler of `src/components/InstancedSphereParticles.tsx`
  (the `extractedData` memo: vertex emission, the triangle loop with its
  back-face test, area-based sample count and barycentric sampling);
* the lifecycle helpers of `src/utils/particleUtils.ts`
  (`getEmissiveParticleIndices`, `generateInitialParticleData`,
  `getLifecyclePhase`, `calculateLifecycleState`);
* the per-frame update of `useFrame` in `InstancedSphereParticles.tsx`;
* the model cache of `src/utils/modelCache.ts` (`loadModel`).

Machine floats are modelled as exact rationals.  `Math.random()` draws are
modelled as explicit streams of rationals supplied as parameters.  The
`Math.sqrt(r1)` value used by the barycentric transform is modelled by
letting the stream supply `s = sqrt r1` directly (square root is a
monotone bijection of `[0,1)` onto itself, so quantifying over `s` in
`[0,1)` covers exactly the values the source computes).
-/

/-- A three.js `Vector3` with exact rational components. -/
structure Vec3 where
  x : ℚ
  y : ℚ
  z : ℚ
deriving DecidableEq

/-- A `{u, v}` texture-coordinate pair. -/
structure UVPair where
  u : ℚ
  v : ℚ
deriving DecidableEq

/-- Model of `Vector3.sub`: componentwise difference. -/
def Vec3.sub (a b : Vec3) : Vec3 :=
  ⟨a.x - b.x, a.y - b.y, a.z - b.z⟩

/-- Model of `Vector3.crossVectors`: the cross product. -/
def Vec3.cross (a b : Vec3) : Vec3 :=
  ⟨a.y * b.z - a.z * b.y, a.z * b.x - a.x * b.z, a.x * b.y - a.y * b.x⟩

/-- The squared euclidean length of a vector (`Vector3.lengthSq`). -/
def Vec3.normSq (a : Vec3) : ℚ :=
  a.x ^ 2 + a.y ^ 2 + a.z ^ 2

/-! Configuration constants from `PARTICLE_SYSTEM_CONFIG`
(`src/constants/particleSystemConfig.ts`). -/

/-- Constant `SURFACE_SAMPLING.MIN_SAMPLES`. -/
def MIN_SAMPLES : ℕ := 12

/-- Constant `SURFACE_SAMPLING.AREA_MULTIPLIER`. -/
def AREA_MULTIPLIER : ℚ := 1000

/-- Constant `SURFACE_SAMPLING.BACK_FACE_CULLING_THRESHOLD`. -/
def BACK_FACE_CULLING_THRESHOLD : ℚ := -3/10

/-- Constant `SURFACE_SAMPLING.FALLBACK_UV`. -/
def FALLBACK_UV : UVPair := ⟨1/2, 1/2⟩

/-- Constant `SIMULATION.EMISSIVE_COUNT`. -/
def EMISSIVE_COUNT : ℕ := 4

/-- Constant `RENDERING.SCALE.EMISSIVE_MULTIPLIER`. -/
def EMISSIVE_MULTIPLIER : ℚ := 3/2

/-- Constant `LIFECYCLE.PHASES.GROW_END`. -/
def GROW_END : ℚ := 1/4

/-- Constant `LIFECYCLE.PHASES.SHRINK_START`. -/
def SHRINK_START : ℚ := 3/4

/-- Constant `LIFECYCLE.PHASES.SHRINK_END`. -/
def SHRINK_END : ℚ := 1

/-! The surface resampler (`extractedData` memo in
`InstancedSphereParticles.tsx`).  Geometry attributes are flat arrays of
floats, modelled as `List ℚ`; an out-of-range read is modelled as `0`
(the source would read `undefined`; all theorems that depend on element
values only use in-range indices). -/

/-- Read entry `i` of a flat attribute array. -/
def arrAt (a : List ℚ) (i : ℕ) : ℚ :=
  a.getD i 0

/-- Number of iterations of the vertex-emission loop
`for (i = 0; i < positions.length; i += 3)`. -/
def numVertexIters (len : ℕ) : ℕ :=
  (len + 2) / 3

/-- The `Vector3` built from floats `3k, 3k+1, 3k+2` of the position array. -/
def vertexAt (ps : List ℚ) (k : ℕ) : Vec3 :=
  ⟨arrAt ps (3 * k), arrAt ps (3 * k + 1), arrAt ps (3 * k + 2)⟩

/-- The UV pair of vertex `k`: floats `2k, 2k+1` of the uv array
(the source computes `uvIndex = (i / 3) * 2`). -/
def vertexUVAt (uvs : List ℚ) (k : ℕ) : UVPair :=
  ⟨arrAt uvs (2 * k), arrAt uvs (2 * k + 1)⟩

/-- Vertex emission: one particle per original vertex, inheriting its UV. -/
def vertexParticles (ps uvs : List ℚ) : List (Vec3 × UVPair) :=
  (List.range (numVertexIters ps.length)).map fun k => (vertexAt ps k, vertexUVAt uvs k)

/-- Number of iterations of the triangle loop
`for (i = 0; i < positions.length - 9; i += 9)`: the `k` with
`9k + 9 < len`, which is `(len - 1) / 9` in truncated arithmetic.  Note
the strict bound `i < length - 9` makes the loop stop one triangle short
of the end of the array. -/
def numTriangleIters (len : ℕ) : ℕ :=
  (len - 1) / 9

/-- The back-face test
`normalize(cross(v2-v1, v3-v1)).z < BACK_FACE_CULLING_THRESHOLD`.
With `n` the unnormalized cross product, `n.z / ‖n‖ < -3/10` holds iff
`n.z < 0` and `100 n.z² > 9 ‖n‖²`, which is the decidable rational form
used here; for `n = 0` three.js `normalize` leaves the zero vector, whose
`z = 0` fails the strict test, matching this form. -/
def backFaceCulled (v1 v2 v3 : Vec3) : Bool :=
  let n := Vec3.cross (v2.sub v1) (v3.sub v1)
  decide (n.z < 0 ∧ 9 * n.normSq < 100 * n.z ^ 2)

/-- The `area` value of the triangle loop: the source computes
`normal.length()` AFTER `normalize()`, so the value is `1` whenever the
cross product is nonzero and `0` for a degenerate triangle. -/
def triangleArea (v1 v2 v3 : Vec3) : ℚ :=
  let n := Vec3.cross (v2.sub v1) (v3.sub v1)
  if n.normSq = 0 then 0 else 1

/-- Per-triangle sample count:
`min(surfaceSampling, max(MIN_SAMPLES, floor(area * AREA_MULTIPLIER * particleDensity)))`.
`Math.floor` is modelled by `Int.floor` followed by `Int.toNat`; a
negative floor is clamped to `0`, which leaves `max MIN_SAMPLES _`
unchanged. -/
def sampleCount (density : ℚ) (cap : ℕ) (v1 v2 v3 : Vec3) : ℕ :=
  min cap (max MIN_SAMPLES (Int.toNat ⌊triangleArea v1 v2 v3 * (AREA_MULTIPLIER * density)⌋))

/-- One barycentric surface sample.  `s` models `Math.sqrt(r1)` and `r2`
the second uniform draw; the weights are `a = 1 - s`, `b = s (1 - r2)`,
`c = s r2` and the position is `a v1 + b v2 + c v3`. -/
def samplePoint (v1 v2 v3 : Vec3) (s r2 : ℚ) : Vec3 :=
  let a := 1 - s
  let b := s * (1 - r2)
  let c := s * r2
  ⟨a * v1.x + b * v2.x + c * v3.x,
   a * v1.y + b * v2.y + c * v3.y,
   a * v1.z + b * v2.z + c * v3.z⟩

/-- The sampled UV for triangle `k`: interpolated from floats
`6k..6k+5` when `6k + 5 < uvs.length` (the source guard
`uv3Index + 1 < uvs.length`), else the fallback `(0.5, 0.5)`. -/
def sampleUV (uvs : List ℚ) (k : ℕ) (s r2 : ℚ) : UVPair :=
  let a := 1 - s
  let b := s * (1 - r2)
  let c := s * r2
  if 6 * k + 5 < uvs.length then
    ⟨a * arrAt uvs (6 * k) + b * arrAt uvs (6 * k + 2) + c * arrAt uvs (6 * k + 4),
     a * arrAt uvs (6 * k + 1) + b * arrAt uvs (6 * k + 3) + c * arrAt uvs (6 * k + 5)⟩
  else FALLBACK_UV

/-- The particles contributed by iteration `k` of the triangle loop.
`rng k j` supplies the pair `(sqrt r1, r2)` of the `j`-th sample of the
`k`-th triangle (the source consumes one global `Math.random()` stream;
indexing draws by `(k, j)` is an injective re-indexing of that stream). -/
def triangleParticles (density : ℚ) (cap : ℕ) (ps uvs : List ℚ)
    (rng : ℕ → ℕ → ℚ × ℚ) (k : ℕ) : List (Vec3 × UVPair) :=
  let v1 := vertexAt ps (3 * k)
  let v2 := vertexAt ps (3 * k + 1)
  let v3 := vertexAt ps (3 * k + 2)
  if backFaceCulled v1 v2 v3 then []
  else
    (List.range (sampleCount density cap v1 v2 v3)).map fun j =>
      (samplePoint v1 v2 v3 (rng k j).1 (rng k j).2, sampleUV uvs k (rng k j).1 (rng k j).2)

/-- The `extractedData` payload: parallel particle position and UV lists. -/
structure ExtractedData where
  positions : List Vec3
  uvs : List UVPair
deriving DecidableEq

/-- Field access `extractedData.count` is the length of the particle position list. -/
def ExtractedData.count (e : ExtractedData) : ℕ :=
  e.positions.length

/-- The `extractedData` memo from the point where the mesh geometry has
been found: if the geometry has no `uv` attribute the memo returns
`extractedData: null`; otherwise it emits the vertex particles followed
by the triangle-loop surface samples. -/
def extractParticles (density : ℚ) (cap : ℕ) (ps : List ℚ)
    (uvsOpt : Option (List ℚ)) (rng : ℕ → ℕ → ℚ × ℚ) : Option ExtractedData :=
  match uvsOpt with
  | none => none
  | some uvs =>
    let verts := vertexParticles ps uvs
    let samples :=
      (List.range (numTriangleIters ps.length)).flatMap (triangleParticles density cap ps uvs rng)
    some { positions := (verts ++ samples).map Prod.fst, uvs := (verts ++ samples).map Prod.snd }

/-- Value `actualParticleCount = extractedData?.count || 0`. -/
def actualParticleCount (e : Option ExtractedData) : ℕ :=
  match e with
  | none => 0
  | some d => d.count

/-- The render guard
`if (!extractedData || !currentMaterial || actualParticleCount === 0) return null`. -/
def rendersNull (e : Option ExtractedData) (materialReady : Bool) : Bool :=
  e.isNone || !materialReady || actualParticleCount e == 0

/-! The lifecycle helpers of `src/utils/particleUtils.ts` and the
per-frame update of `useFrame` in `InstancedSphereParticles.tsx`. -/

/-- Enumeration `ParticleLifecyclePhase` from `particleTypes.ts`. -/
inductive ParticleLifecyclePhase where
  | GROWING
  | STABLE
  | SHRINKING
  | DEAD
deriving DecidableEq

/-- Three.js `MathUtils.smoothstep(x, min, max)`: NOTE the first argument
is the sample point `x`, not an edge.  Returns `0` for `x ≤ min`, `1` for
`x ≥ max`, else the cubic `t² (3 - 2t)` of the normalized position. -/
def smoothstepJS (x mn mx : ℚ) : ℚ :=
  if x ≤ mn then 0
  else if mx ≤ x then 1
  else
    let t := (x - mn) / (mx - mn)
    t * t * (3 - 2 * t)

/-- Model of `ParticleLifecycleUtils.getLifecyclePhase`. -/
def getLifecyclePhase (normalizedLife : ℚ) : ParticleLifecyclePhase :=
  if normalizedLife ≤ GROW_END then .GROWING
  else if normalizedLife ≤ SHRINK_START then .STABLE
  else if normalizedLife < SHRINK_END then .SHRINKING
  else .DEAD

/-- The `ParticleLifeCycle` record of `particleTypes.ts`. -/
structure ParticleLifeCycle where
  phase : ParticleLifecyclePhase
  normalizedLife : ℚ
  scaleMultiplier : ℚ
  alphaMultiplier : ℚ
  phaseProgress : ℚ
deriving DecidableEq

/-- Model of `ParticleLifecycleUtils.calculateLifecycleState`: phase progress and
the scale multiplier, which calls `MathUtils.smoothstep(0, 1, progress)`
while growing and `MathUtils.smoothstep(1, 0, progress)` while shrinking
(the same argument order as the source). -/
def calculateLifecycleState (normalizedLife : ℚ) : ParticleLifeCycle :=
  let phase := getLifecyclePhase normalizedLife
  let pp : ℚ × ℚ :=
    match phase with
    | .GROWING =>
      let progress := normalizedLife / GROW_END
      (progress, smoothstepJS 0 1 progress)
    | .STABLE =>
      ((normalizedLife - GROW_END) / (SHRINK_START - GROW_END), 1)
    | .SHRINKING =>
      let progress := (normalizedLife - SHRINK_START) / (SHRINK_END - SHRINK_START)
      (progress, smoothstepJS 1 0 progress)
    | .DEAD => (1, 0)
  { phase := phase
    normalizedLife := normalizedLife
    scaleMultiplier := pp.2
    alphaMultiplier := pp.2
    phaseProgress := pp.1 }

/-- The `ParticleData` record of `particleTypes.ts`. -/
structure ParticleData where
  position : Vec3
  velocity : Vec3
  life : ℚ
  maxLife : ℚ
  scale : ℚ
  isEmissive : Bool
  emissiveIntensity : ℚ
  proximityInfluence : ℚ
deriving DecidableEq

/-- Model of `ParticleCountCalculator.getEmissiveParticleIndices`: the first
`min(EMISSIVE_COUNT, particleCount)` indices. -/
def getEmissiveParticleIndices (particleCount : ℕ) : List ℕ :=
  List.range (min EMISSIVE_COUNT particleCount)

/-- Body of `ParticleDataGenerator.generateInitialParticleData`, recursing
over the position list with the running index `i`.  `rng` supplies the
`Math.random()` draws; each particle consumes five (three velocity
components, `life`, and the `maxLife` jitter). -/
def generateFrom (positions : List Vec3) (emissiveIndices : List ℕ) (rng : ℕ → ℚ)
    (i : ℕ) : List ParticleData :=
  match positions with
  | [] => []
  | p :: rest =>
    { position := p
      velocity := ⟨(rng (5 * i) - 1/2) * (1/10), (rng (5 * i + 1) - 1/2) * (1/10),
                   (rng (5 * i + 2) - 1/2) * (1/10)⟩
      life := rng (5 * i + 3)
      maxLife := 1 + rng (5 * i + 4) * 2
      scale := 1
      isEmissive := emissiveIndices.contains i
      emissiveIntensity := if emissiveIndices.contains i then 1 else 0
      proximityInfluence := 0 } :: generateFrom rest emissiveIndices rng (i + 1)

/-- Model of `ParticleDataGenerator.generateInitialParticleData`. -/
def generateInitialParticleData (positions : List Vec3) (emissiveIndices : List ℕ)
    (rng : ℕ → ℚ) : List ParticleData :=
  generateFrom positions emissiveIndices rng 0

/-- The literal `0.005` of `particle.life += 0.005 * animationSpeed`. -/
def LIFECYCLE_SPEED : ℚ := 1/200

/-- The per-frame life rule of `useFrame`:
`life += 0.005 * animationSpeed; if (life > 1.0) life = 0.0`. -/
def updateLife (life animationSpeed : ℚ) : ℚ :=
  let l := life + LIFECYCLE_SPEED * animationSpeed
  if 1 < l then 0 else l

/-- The per-frame mutation of one `ParticleData` record: only `life` is
written; position, emissive flag and the rest are untouched. -/
def updateParticleFrame (p : ParticleData) (animationSpeed : ℚ) : ParticleData :=
  { p with life := updateLife p.life animationSpeed }

/-- The instance scale computed each frame:
`baseScale = particleScale * lifecycle.scaleMultiplier`, times
`EMISSIVE_MULTIPLIER` for emissive particles. -/
def derivedFinalScale (p : ParticleData) (particleScale : ℚ) : ℚ :=
  let lc := calculateLifecycleState p.life
  let baseScale := particleScale * lc.scaleMultiplier
  if p.isEmissive then baseScale * EMISSIVE_MULTIPLIER else baseScale

/-! The model cache of `src/utils/modelCache.ts`.  URLs and loaded assets
are modelled as identifiers (`ℕ`); promises are numbered in creation
order.  JavaScript is single threaded, so each exported operation is one
atomic step on the state. -/

/-- The module state: `modelCache`, `loadingPromises`, a promise-id
counter, and a per-url count of `loader.load` invocations (for stating
the at-most-one-load property). -/
structure LoaderState where
  modelCache : ℕ → Option ℕ
  loadingPromises : ℕ → Option ℕ
  nextPromiseId : ℕ
  loadsStarted : ℕ → ℕ

/-- What a `loadModel` call hands back: a cache hit resolves immediately
with the cached asset; otherwise the caller gets a promise (the in-flight
one, or a freshly created one). -/
inductive LoadResult where
  | cached (asset : ℕ)
  | pending (promiseId : ℕ)
deriving DecidableEq

/-- Model of `loadModel(url)`: return the cached model if present, else the
in-flight promise if present, else start one underlying `loader.load`
and record the new promise under the url. -/
def loadModel (url : ℕ) (s : LoaderState) : LoadResult × LoaderState :=
  match s.modelCache url with
  | some g => (.cached g, s)
  | none =>
    match s.loadingPromises url with
    | some p => (.pending p, s)
    | none =>
      let pid := s.nextPromiseId
      (.pending pid,
       { s with
         loadingPromises := fun u => if u = url then some pid else s.loadingPromises u
         nextPromiseId := pid + 1
         loadsStarted := fun u => if u = url then s.loadsStarted u + 1 else s.loadsStarted u })

/-- The success callback of the underlying load:
`modelCache.set(url, gltf); loadingPromises.delete(url)`. -/
def finishLoad (url asset : ℕ) (s : LoaderState) : LoaderState :=
  { s with
    modelCache := fun u => if u = url then some asset else s.modelCache u
    loadingPromises := fun u => if u = url then none else s.loadingPromises u }

/-- The error callback of the underlying load:
`loadingPromises.delete(url)` (the promise rejects). -/
def failLoad (url : ℕ) (s : LoaderState) : LoaderState :=
  { s with loadingPromises := fun u => if u = url then none else s.loadingPromises u }

/-- Model of `clearModelCache()`: empty both maps. -/
def clearModelCache (s : LoaderState) : LoaderState :=
  { s with modelCache := fun _ => none, loadingPromises := fun _ => none }

/-- The atomic events that can touch the module state. -/
inductive LoaderEvent where
  | call (url : ℕ)
  | success (url asset : ℕ)
  | failure (url : ℕ)
  | clear
deriving DecidableEq

/-- One event step. -/
def stepLoader (s : LoaderState) : LoaderEvent → LoaderState
  | .call url => (loadModel url s).2
  | .success url asset => finishLoad url asset s
  | .failure url => failLoad url s
  | .clear => clearModelCache s

/-- The state at module load: empty maps, no promises, no loads. -/
def initLoaderState : LoaderState :=
  { modelCache := fun _ => none
    loadingPromises := fun _ => none
    nextPromiseId := 0
    loadsStarted := fun _ => 0 }

/-- Run a sequence of events from the initial state. -/
def runLoader (events : List LoaderEvent) : LoaderState :=
  events.foldl stepLoader initLoaderState

/-- Events that neither clear the cache nor fail a load. -/
def cleanEvent : LoaderEvent → Bool
  | .failure _ => false
  | .clear => false
  | _ => true

/-! General helper lemmas. -/

/-- A list sum is at most length times a common bound. -/
lemma list_sum_le_length_mul (l : List ℕ) (c : ℕ) (h : ∀ x ∈ l, x ≤ c) :
    l.sum ≤ l.length * c := by
  induction l with
  | nil => simp
  | cons a t ih =>
    have ha := h a (List.mem_cons_self a t)
    have ht := ih fun x hx => h x (List.mem_cons_of_mem a hx)
    simp only [List.sum_cons, List.length_cons]
    calc a + t.sum ≤ c + t.length * c := Nat.add_le_add ha ht
    _ = (t.length + 1) * c := by ring

/-- Each triangle-loop iteration contributes at most `cap` particles. -/
lemma triangleParticles_length_le (density : ℚ) (cap : ℕ) (ps uvs : List ℚ)
    (rng : ℕ → ℕ → ℚ × ℚ) (k : ℕ) :
    (triangleParticles density cap ps uvs rng k).length ≤ cap := by
  by_cases h : backFaceCulled (vertexAt ps (3 * k)) (vertexAt ps (3 * k + 1))
      (vertexAt ps (3 * k + 2)) = true
  · simp [triangleParticles, h]
  · simp only [triangleParticles, if_neg h, List.length_map, List.length_range, sampleCount]
    exact Nat.min_le_left _ _

/-- The resampled particle count decomposes as vertex count plus the sum of
per-triangle contributions. -/
lemma extract_count_decomp (density : ℚ) (cap : ℕ) (ps uvs : List ℚ)
    (rng : ℕ → ℕ → ℚ × ℚ) :
    actualParticleCount (extractParticles density cap ps (some uvs) rng)
      = numVertexIters ps.length
        + ((List.range (numTriangleIters ps.length)).map
            fun k => (triangleParticles density cap ps uvs rng k).length).sum := by
  simp [extractParticles, actualParticleCount, ExtractedData.count, vertexParticles,
    List.length_flatMap, Function.comp_def]

/-- C1 (amended): when the geometry has positions but no UV attribute, the
extraction memo returns no particle data at all and the component renders
nothing — it does not produce vertex-only particles with the fallback UV. -/
theorem missing_uv_renders_nothing (density : ℚ) (cap : ℕ) (ps : List ℚ)
    (rng : ℕ → ℕ → ℚ × ℚ) (materialReady : Bool) :
    extractParticles density cap ps none rng = none ∧
    actualParticleCount (extractParticles density cap ps none rng) = 0 ∧
    rendersNull (extractParticles density cap ps none rng) materialReady = true := by
  refine ⟨rfl, rfl, ?_⟩
  simp [rendersNull, extractParticles]

/-- C1 counterexample: a concrete one-triangle mesh with positions but no UV
attribute yields zero particles, not the three vertex-only fallback-UV
particles the claim requires. -/
theorem missing_uv_no_fallback_particles :
    extractParticles 1 128 [0, 0, 0, 1, 0, 0, 0, 1, 0] none (fun _ _ => (1/2, 1/2)) = none ∧
    actualParticleCount
      (extractParticles 1 128 [0, 0, 0, 1, 0, 0, 0, 1, 0] none (fun _ _ => (1/2, 1/2))) = 0 ∧
    ¬ numVertexIters 9 ≤ actualParticleCount
      (extractParticles 1 128 [0, 0, 0, 1, 0, 0, 0, 1, 0] none (fun _ _ => (1/2, 1/2))) := by
  exact ⟨rfl, rfl, by decide⟩

/-- C2 (amended): the output particle count equals the vertex count plus the
per-triangle contributions of the `(length - 1) / 9` triangles the loop
actually visits (one short of the last, each possibly culled to zero), and
hence lies in the interval `[V, V + T' * cap]` with `T'` the visited-triangle
count and `cap` the surface-sampling cap. -/
theorem resample_count_bounds (density : ℚ) (cap : ℕ) (ps uvs : List ℚ)
    (rng : ℕ → ℕ → ℚ × ℚ) :
    actualParticleCount (extractParticles density cap ps (some uvs) rng)
      = numVertexIters ps.length
        + ((List.range (numTriangleIters ps.length)).map
            fun k => (triangleParticles density cap ps uvs rng k).length).sum ∧
    numVertexIters ps.length
      ≤ actualParticleCount (extractParticles density cap ps (some uvs) rng) ∧
    actualParticleCount (extractParticles density cap ps (some uvs) rng)
      ≤ numVertexIters ps.length + numTriangleIters ps.length * cap := by
  have h := extract_count_decomp density cap ps uvs rng
  refine ⟨h, ?_, ?_⟩
  · rw [h]; exact Nat.le_add_right _ _
  · rw [h]
    have hsum : ((List.range (numTriangleIters ps.length)).map
        fun k => (triangleParticles density cap ps uvs rng k).length).sum
        ≤ numTriangleIters ps.length * cap := by
      have := list_sum_le_length_mul
        ((List.range (numTriangleIters ps.length)).map
          fun k => (triangleParticles density cap ps uvs rng k).length) cap ?_
      · simpa using this
      · intro x hx
        rcases List.mem_map.mp hx with ⟨k, _, rfl⟩
        exact triangleParticles_length_le density cap ps uvs rng k
    exact Nat.add_le_add_left hsum _

/-- C2 counterexample: a one-triangle mesh (9 position floats, 6 uv floats)
yields exactly its 3 vertex particles — the loop bound `i < length - 9`
skips the only triangle, so the count falls below the claimed lower bound
`V + T * minSamples = 3 + 1 * 12`. -/
theorem resample_drops_last_triangle :
    actualParticleCount (extractParticles 1 128 [0, 0, 0, 1, 0, 0, 0, 1, 0]
      (some [0, 0, 1, 0, 0, 1]) (fun _ _ => (1/2, 1/2))) = 3 ∧
    3 < 3 + 1 * MIN_SAMPLES := by
  exact ⟨by decide, by decide⟩

/-- C3: the code normalizes the cross product before measuring it, so the
`area` driving the sample count is `1` regardless of triangle size.  For a
tiny triangle whose unnormalized cross product has squared length
`1/100000000` (magnitude `1/10000`), the code draws `128` samples, while the
claimed formula `clamp(floor(area * areaMultiplier * density), min, cap)`
with the unnormalized magnitude gives `12`. -/
theorem sampleCount_ignores_true_area :
    (Vec3.cross ((Vec3.mk (1/100) 0 0).sub (Vec3.mk 0 0 0))
        ((Vec3.mk 0 (1/100) 0).sub (Vec3.mk 0 0 0))).normSq = 1/100000000 ∧
    sampleCount 1 128 (Vec3.mk 0 0 0) (Vec3.mk (1/100) 0 0) (Vec3.mk 0 (1/100) 0) = 128 ∧
    min 128 (max MIN_SAMPLES (Int.toNat ⌊(1/10000 : ℚ) * (AREA_MULTIPLIER * 1)⌋)) = 12 := by
  have harea : triangleArea (Vec3.mk 0 0 0) (Vec3.mk (1/100) 0 0) (Vec3.mk 0 (1/100) 0) = 1 := by
    norm_num [triangleArea, Vec3.cross, Vec3.sub, Vec3.normSq]
  refine ⟨by norm_num [Vec3.cross, Vec3.sub, Vec3.normSq], ?_, ?_⟩
  · rw [sampleCount, harea]
    norm_num [AREA_MULTIPLIER, MIN_SAMPLES]
  · norm_num [AREA_MULTIPLIER, MIN_SAMPLES]

/-- C4 (amended): the back-face test is applied unconditionally — a triangle
whose unit normal has `z < -0.3` contributes no surface samples at all,
and a triangle passing the test contributes exactly the computed sample
count.  There is no configuration that disables the test. -/
theorem backface_test_always_applied (density : ℚ) (cap : ℕ) (ps uvs : List ℚ)
    (rng : ℕ → ℕ → ℚ × ℚ) (k : ℕ) :
    (backFaceCulled (vertexAt ps (3 * k)) (vertexAt ps (3 * k + 1)) (vertexAt ps (3 * k + 2))
        = true → triangleParticles density cap ps uvs rng k = []) ∧
    (backFaceCulled (vertexAt ps (3 * k)) (vertexAt ps (3 * k + 1)) (vertexAt ps (3 * k + 2))
        = false → (triangleParticles density cap ps uvs rng k).length
          = sampleCount density cap (vertexAt ps (3 * k)) (vertexAt ps (3 * k + 1))
              (vertexAt ps (3 * k + 2))) := by
  constructor <;> intro h <;> simp [triangleParticles, h]

/-- C4 witness: a concrete culled triangle contributes nothing, and a
concrete front-facing one contributes its full sample count. -/
theorem backface_test_always_applied_witness :
    triangleParticles 1 2 [0, 0, 0, 0, 1, 0, 1, 0, 0] [] (fun _ _ => (1/2, 1/2)) 0 = [] ∧
    (triangleParticles 1 2 [0, 0, 0, 1, 0, 0, 0, 1, 0] [] (fun _ _ => (1/2, 1/2)) 0).length
      = sampleCount 1 2 (vertexAt [0, 0, 0, 1, 0, 0, 0, 1, 0] 0)
          (vertexAt [0, 0, 0, 1, 0, 0, 0, 1, 0] 1) (vertexAt [0, 0, 0, 1, 0, 0, 0, 1, 0] 2) :=
  ⟨(backface_test_always_applied 1 2 [0, 0, 0, 0, 1, 0, 1, 0, 0] [] (fun _ _ => (1/2, 1/2)) 0).1
      (by show backFaceCulled (Vec3.mk 0 0 0) (Vec3.mk 0 1 0) (Vec3.mk 1 0 0) = true
          norm_num [backFaceCulled, Vec3.cross, Vec3.sub, Vec3.normSq]),
   (backface_test_always_applied 1 2 [0, 0, 0, 1, 0, 0, 0, 1, 0] [] (fun _ _ => (1/2, 1/2)) 0).2
      (by show backFaceCulled (Vec3.mk 0 0 0) (Vec3.mk 1 0 0) (Vec3.mk 0 1 0) = false
          norm_num [backFaceCulled, Vec3.cross, Vec3.sub, Vec3.normSq])⟩

/-- C4 counterexample: a two-triangle mesh whose first (and only processed)
triangle is back-facing produces only its 6 vertex particles: that triangle
is skipped by the normal-direction test under the default configuration. -/
theorem backfacing_triangle_skipped :
    backFaceCulled (Vec3.mk 0 0 0) (Vec3.mk 0 1 0) (Vec3.mk 1 0 0) = true ∧
    actualParticleCount (extractParticles 1 128
      [0, 0, 0, 0, 1, 0, 1, 0, 0, 0, 0, 1, 0, 1, 1, 1, 0, 1]
      (some [0, 0, 1, 0, 0, 1, 0, 0, 1, 0, 0, 1]) (fun _ _ => (1/2, 1/2))) = 6 := by
  have hcull : backFaceCulled (Vec3.mk 0 0 0) (Vec3.mk 0 1 0) (Vec3.mk 1 0 0) = true := by
    norm_num [backFaceCulled, Vec3.cross, Vec3.sub, Vec3.normSq]
  refine ⟨hcull, ?_⟩
  have htp : triangleParticles 1 128 [0, 0, 0, 0, 1, 0, 1, 0, 0, 0, 0, 1, 0, 1, 1, 1, 0, 1]
      [0, 0, 1, 0, 0, 1, 0, 0, 1, 0, 0, 1] (fun _ _ => (1/2, 1/2)) 0 = [] := by
    have hc0 : backFaceCulled
        (vertexAt [0, 0, 0, 0, 1, 0, 1, 0, 0, 0, 0, 1, 0, 1, 1, 1, 0, 1] 0)
        (vertexAt [0, 0, 0, 0, 1, 0, 1, 0, 0, 0, 0, 1, 0, 1, 1, 1, 0, 1] 1)
        (vertexAt [0, 0, 0, 0, 1, 0, 1, 0, 0, 0, 0, 1, 0, 1, 1, 1, 0, 1] 2) = true := by
      show backFaceCulled (Vec3.mk 0 0 0) (Vec3.mk 0 1 0) (Vec3.mk 1 0 0) = true
      exact hcull
    simp [triangleParticles, hc0]
  rw [extract_count_decomp]
  have hlen : ([0, 0, 0, 0, 1, 0, 1, 0, 0, 0, 0, 1, 0, 1, 1, 1, 0, 1] : List ℚ).length = 18 := rfl
  rw [hlen]
  have h1 : numTriangleIters 18 = 1 := by decide
  have h2 : numVertexIters 18 = 6 := by decide
  rw [h1, h2]
  have hr : List.range 1 = [0] := rfl
  rw [hr, List.map_cons, List.map_nil, htp]
  rfl

/-- C5: when the per-frame increment takes `life` past `1.0`, the update
resets `life` to exactly `0` (inside `[0,1)`), leaves the stored position
untouched, and the lifecycle state and derived scale right after the wrap
are those of `life = 0`. -/
theorem life_wrap_resets_to_zero (p : ParticleData) (animationSpeed particleScale : ℚ)
    (h : 1 < p.life + LIFECYCLE_SPEED * animationSpeed) :
    (updateParticleFrame p animationSpeed).life = 0 ∧
    0 ≤ (updateParticleFrame p animationSpeed).life ∧
    (updateParticleFrame p animationSpeed).life < 1 ∧
    (updateParticleFrame p animationSpeed).position = p.position ∧
    calculateLifecycleState (updateParticleFrame p animationSpeed).life
      = calculateLifecycleState 0 ∧
    derivedFinalScale (updateParticleFrame p animationSpeed) particleScale
      = derivedFinalScale { p with life := 0 } particleScale := by
  have hl : updateLife p.life animationSpeed = 0 := by
    unfold updateLife
    simp only [if_pos h]
  have hrec : updateParticleFrame p animationSpeed = { p with life := 0 } := by
    unfold updateParticleFrame
    rw [hl]
  rw [hrec]
  exact ⟨rfl, le_refl 0, by norm_num, rfl, rfl, rfl⟩

/-- C5 witness: a particle at `life = 0.999` with `animationSpeed = 3`
overshoots `1.0`, wraps to `0` and keeps its position. -/
theorem life_wrap_resets_to_zero_witness :
    (updateParticleFrame ⟨⟨1, 2, 3⟩, ⟨0, 0, 0⟩, 999/1000, 2, 1, false, 0, 0⟩ 3).life = 0 ∧
    (updateParticleFrame ⟨⟨1, 2, 3⟩, ⟨0, 0, 0⟩, 999/1000, 2, 1, false, 0, 0⟩ 3).position
      = Vec3.mk 1 2 3 := by
  have h : (1 : ℚ) <
      (⟨⟨1, 2, 3⟩, ⟨0, 0, 0⟩, 999/1000, 2, 1, false, 0, 0⟩ : ParticleData).life
        + LIFECYCLE_SPEED * 3 := by
    norm_num [LIFECYCLE_SPEED]
  have hw := life_wrap_resets_to_zero ⟨⟨1, 2, 3⟩, ⟨0, 0, 0⟩, 999/1000, 2, 1, false, 0, 0⟩ 3 1 h
  exact ⟨hw.1, hw.2.2.2.1⟩

/-- C6: the CPU-side scale multiplier of `calculateLifecycleState` is the
constant `0` on the whole growing phase and the constant `1` on the whole
shrinking phase (it stays `1` arbitrarily close to `life = 1` instead of
easing to `0`), because three.js `MathUtils.smoothstep` takes the sample
point as its FIRST argument: `smoothstep(0, 1, t)` is identically `0` and
`smoothstep(1, 0, t)` is `1` for every `t ≤ 1`. -/
theorem scaleMultiplier_constant_by_phase :
    (calculateLifecycleState (99/100)).phase = ParticleLifecyclePhase.SHRINKING ∧
    (calculateLifecycleState (99/100)).scaleMultiplier = 1 ∧
    (calculateLifecycleState (9/10)).scaleMultiplier = 1 ∧
    (calculateLifecycleState (1/10)).phase = ParticleLifecyclePhase.GROWING ∧
    (calculateLifecycleState (1/10)).scaleMultiplier = 0 := by
  have h99 : getLifecyclePhase (99/100) = ParticleLifecyclePhase.SHRINKING := by
    norm_num [getLifecyclePhase, GROW_END, SHRINK_START, SHRINK_END]
  have h90 : getLifecyclePhase (9/10) = ParticleLifecyclePhase.SHRINKING := by
    norm_num [getLifecyclePhase, GROW_END, SHRINK_START, SHRINK_END]
  have h10 : getLifecyclePhase (1/10) = ParticleLifecyclePhase.GROWING := by
    norm_num [getLifecyclePhase, GROW_END, SHRINK_START, SHRINK_END]
  refine ⟨?_, ?_, ?_, ?_, ?_⟩ <;>
    simp only [calculateLifecycleState, h99, h90, h10] <;>
    norm_num [smoothstepJS, GROW_END, SHRINK_START, SHRINK_END]

/-! Helper lemmas for the barycentric sampling claim. -/

/-- A convex combination of three rationals lies between their min and max. -/
lemma convex3_between (a b c x1 x2 x3 : ℚ) (ha : 0 ≤ a) (hb : 0 ≤ b) (hc : 0 ≤ c)
    (hsum : a + b + c = 1) :
    min (min x1 x2) x3 ≤ a * x1 + b * x2 + c * x3 ∧
      a * x1 + b * x2 + c * x3 ≤ max (max x1 x2) x3 := by
  constructor
  · have h1 : min (min x1 x2) x3 ≤ x1 := le_trans (min_le_left _ _) (min_le_left _ _)
    have h2 : min (min x1 x2) x3 ≤ x2 := le_trans (min_le_left _ _) (min_le_right _ _)
    have h3 : min (min x1 x2) x3 ≤ x3 := min_le_right _ _
    have key : (a + b + c) * min (min x1 x2) x3 ≤ a * x1 + b * x2 + c * x3 := by
      nlinarith [mul_le_mul_of_nonneg_left h1 ha, mul_le_mul_of_nonneg_left h2 hb,
        mul_le_mul_of_nonneg_left h3 hc]
    calc min (min x1 x2) x3 = (a + b + c) * min (min x1 x2) x3 := by rw [hsum, one_mul]
    _ ≤ a * x1 + b * x2 + c * x3 := key
  · have h1 : x1 ≤ max (max x1 x2) x3 := le_trans (le_max_left _ _) (le_max_left _ _)
    have h2 : x2 ≤ max (max x1 x2) x3 := le_trans (le_max_right _ _) (le_max_left _ _)
    have h3 : x3 ≤ max (max x1 x2) x3 := le_max_right _ _
    have key : a * x1 + b * x2 + c * x3 ≤ (a + b + c) * max (max x1 x2) x3 := by
      nlinarith [mul_le_mul_of_nonneg_left h1 ha, mul_le_mul_of_nonneg_left h2 hb,
        mul_le_mul_of_nonneg_left h3 hc]
    calc a * x1 + b * x2 + c * x3 ≤ (a + b + c) * max (max x1 x2) x3 := key
    _ = max (max x1 x2) x3 := by rw [hsum, one_mul]

/-- The weight facts for draws in `[0,1)`. -/
lemma baryWeights_range (s r2 : ℚ) (hs0 : 0 ≤ s) (hs1 : s < 1) (hr0 : 0 ≤ r2) (hr1 : r2 < 1) :
    (0 ≤ 1 - s ∧ 1 - s ≤ 1) ∧ (0 ≤ s * (1 - r2) ∧ s * (1 - r2) ≤ 1) ∧
      (0 ≤ s * r2 ∧ s * r2 ≤ 1) ∧ (1 - s) + s * (1 - r2) + s * r2 = 1 := by
  refine ⟨⟨by linarith, by linarith⟩, ⟨?_, ?_⟩, ⟨?_, ?_⟩, by ring⟩
  · exact mul_nonneg hs0 (by linarith)
  · nlinarith
  · exact mul_nonneg hs0 hr0
  · nlinarith

/-- The sample point coordinates lie within the triangle's coordinate ranges. -/
lemma samplePoint_between (v1 v2 v3 : Vec3) (s r2 : ℚ) (hs0 : 0 ≤ s) (hs1 : s < 1)
    (hr0 : 0 ≤ r2) (hr1 : r2 < 1) :
    (min (min v1.x v2.x) v3.x ≤ (samplePoint v1 v2 v3 s r2).x ∧
      (samplePoint v1 v2 v3 s r2).x ≤ max (max v1.x v2.x) v3.x) ∧
    (min (min v1.y v2.y) v3.y ≤ (samplePoint v1 v2 v3 s r2).y ∧
      (samplePoint v1 v2 v3 s r2).y ≤ max (max v1.y v2.y) v3.y) ∧
    (min (min v1.z v2.z) v3.z ≤ (samplePoint v1 v2 v3 s r2).z ∧
      (samplePoint v1 v2 v3 s r2).z ≤ max (max v1.z v2.z) v3.z) := by
  obtain ⟨⟨ha0, _⟩, ⟨hb0, _⟩, ⟨hc0, _⟩, hsum⟩ := baryWeights_range s r2 hs0 hs1 hr0 hr1
  exact ⟨convex3_between _ _ _ _ _ _ ha0 hb0 hc0 hsum,
    convex3_between _ _ _ _ _ _ ha0 hb0 hc0 hsum,
    convex3_between _ _ _ _ _ _ ha0 hb0 hc0 hsum⟩

/-- C7: every particle emitted by the triangle sampling loop (draws in
`[0,1)`) comes from barycentric weights `a = 1 - s`, `b = s (1 - r2)`,
`c = s r2` that each lie in `[0,1]` and sum to `1`, and its position is the
corresponding convex combination of the triangle's vertices — in
particular each coordinate lies between the vertices' min and max. -/
theorem surface_samples_in_hull (density : ℚ) (cap : ℕ) (ps uvs : List ℚ)
    (rng : ℕ → ℕ → ℚ × ℚ) (k : ℕ)
    (hrng : ∀ a b, 0 ≤ (rng a b).1 ∧ (rng a b).1 < 1 ∧ 0 ≤ (rng a b).2 ∧ (rng a b).2 < 1) :
    ∀ pr ∈ triangleParticles density cap ps uvs rng k,
      ∃ s r2, (0 ≤ s ∧ s < 1 ∧ 0 ≤ r2 ∧ r2 < 1) ∧
        pr.1 = samplePoint (vertexAt ps (3 * k)) (vertexAt ps (3 * k + 1))
          (vertexAt ps (3 * k + 2)) s r2 ∧
        (0 ≤ 1 - s ∧ 1 - s ≤ 1) ∧ (0 ≤ s * (1 - r2) ∧ s * (1 - r2) ≤ 1) ∧
        (0 ≤ s * r2 ∧ s * r2 ≤ 1) ∧ (1 - s) + s * (1 - r2) + s * r2 = 1 ∧
        (min (min (vertexAt ps (3 * k)).x (vertexAt ps (3 * k + 1)).x)
            (vertexAt ps (3 * k + 2)).x ≤ pr.1.x ∧
          pr.1.x ≤ max (max (vertexAt ps (3 * k)).x (vertexAt ps (3 * k + 1)).x)
            (vertexAt ps (3 * k + 2)).x) ∧
        (min (min (vertexAt ps (3 * k)).y (vertexAt ps (3 * k + 1)).y)
            (vertexAt ps (3 * k + 2)).y ≤ pr.1.y ∧
          pr.1.y ≤ max (max (vertexAt ps (3 * k)).y (vertexAt ps (3 * k + 1)).y)
            (vertexAt ps (3 * k + 2)).y) ∧
        (min (min (vertexAt ps (3 * k)).z (vertexAt ps (3 * k + 1)).z)
            (vertexAt ps (3 * k + 2)).z ≤ pr.1.z ∧
          pr.1.z ≤ max (max (vertexAt ps (3 * k)).z (vertexAt ps (3 * k + 1)).z)
            (vertexAt ps (3 * k + 2)).z) := by
  intro pr hpr
  by_cases hc : backFaceCulled (vertexAt ps (3 * k)) (vertexAt ps (3 * k + 1))
      (vertexAt ps (3 * k + 2)) = true
  · simp [triangleParticles, hc] at hpr
  · simp only [triangleParticles, if_neg hc, List.mem_map, List.mem_range] at hpr
    obtain ⟨j, _, rfl⟩ := hpr
    obtain ⟨hs0, hs1, hr0, hr1⟩ := hrng k j
    refine ⟨(rng k j).1, (rng k j).2, ⟨hs0, hs1, hr0, hr1⟩, rfl, ?_⟩
    obtain ⟨w1, w2, w3, w4⟩ := baryWeights_range _ _ hs0 hs1 hr0 hr1
    obtain ⟨bx, hy, hz⟩ := samplePoint_between (vertexAt ps (3 * k))
      (vertexAt ps (3 * k + 1)) (vertexAt ps (3 * k + 2)) _ _ hs0 hs1 hr0 hr1
    exact ⟨w1, w2, w3, w4, bx, hy, hz⟩

/-- C7 witness: the coordinate bounds of the theorem, instantiated at the
concrete sample the loop emits for a front-facing triangle with the
constant draw `(1/2, 1/2)`. -/
theorem surface_samples_in_hull_witness :
    (min (min (vertexAt [0, 0, 0, 1, 0, 0, 0, 1, 0] 0).x
        (vertexAt [0, 0, 0, 1, 0, 0, 0, 1, 0] 1).x) (vertexAt [0, 0, 0, 1, 0, 0, 0, 1, 0] 2).x
      ≤ (samplePoint (vertexAt [0, 0, 0, 1, 0, 0, 0, 1, 0] 0)
          (vertexAt [0, 0, 0, 1, 0, 0, 0, 1, 0] 1) (vertexAt [0, 0, 0, 1, 0, 0, 0, 1, 0] 2)
          (1/2) (1/2)).x) ∧
    ((samplePoint (vertexAt [0, 0, 0, 1, 0, 0, 0, 1, 0] 0)
        (vertexAt [0, 0, 0, 1, 0, 0, 0, 1, 0] 1) (vertexAt [0, 0, 0, 1, 0, 0, 0, 1, 0] 2)
        (1/2) (1/2)).x
      ≤ max (max (vertexAt [0, 0, 0, 1, 0, 0, 0, 1, 0] 0).x
          (vertexAt [0, 0, 0, 1, 0, 0, 0, 1, 0] 1).x) (vertexAt [0, 0, 0, 1, 0, 0, 0, 1, 0] 2).x) ∧
    (min (min (vertexAt [0, 0, 0, 1, 0, 0, 0, 1, 0] 0).y
        (vertexAt [0, 0, 0, 1, 0, 0, 0, 1, 0] 1).y) (vertexAt [0, 0, 0, 1, 0, 0, 0, 1, 0] 2).y
      ≤ (samplePoint (vertexAt [0, 0, 0, 1, 0, 0, 0, 1, 0] 0)
          (vertexAt [0, 0, 0, 1, 0, 0, 0, 1, 0] 1) (vertexAt [0, 0, 0, 1, 0, 0, 0, 1, 0] 2)
          (1/2) (1/2)).y) ∧
    ((samplePoint (vertexAt [0, 0, 0, 1, 0, 0, 0, 1, 0] 0)
        (vertexAt [0, 0, 0, 1, 0, 0, 0, 1, 0] 1) (vertexAt [0, 0, 0, 1, 0, 0, 0, 1, 0] 2)
        (1/2) (1/2)).y
      ≤ max (max (vertexAt [0, 0, 0, 1, 0, 0, 0, 1, 0] 0).y
          (vertexAt [0, 0, 0, 1, 0, 0, 0, 1, 0] 1).y) (vertexAt [0, 0, 0, 1, 0, 0, 0, 1, 0] 2).y) ∧
    (min (min (vertexAt [0, 0, 0, 1, 0, 0, 0, 1, 0] 0).z
        (vertexAt [0, 0, 0, 1, 0, 0, 0, 1, 0] 1).z) (vertexAt [0, 0, 0, 1, 0, 0, 0, 1, 0] 2).z
      ≤ (samplePoint (vertexAt [0, 0, 0, 1, 0, 0, 0, 1, 0] 0)
          (vertexAt [0, 0, 0, 1, 0, 0, 0, 1, 0] 1) (vertexAt [0, 0, 0, 1, 0, 0, 0, 1, 0] 2)
          (1/2) (1/2)).z) ∧
    ((samplePoint (vertexAt [0, 0, 0, 1, 0, 0, 0, 1, 0] 0)
        (vertexAt [0, 0, 0, 1, 0, 0, 0, 1, 0] 1) (vertexAt [0, 0, 0, 1, 0, 0, 0, 1, 0] 2)
        (1/2) (1/2)).z
      ≤ max (max (vertexAt [0, 0, 0, 1, 0, 0, 0, 1, 0] 0).z
          (vertexAt [0, 0, 0, 1, 0, 0, 0, 1, 0] 1).z) (vertexAt [0, 0, 0, 1, 0, 0, 0, 1, 0] 2).z) := by
  have hcf : ¬ backFaceCulled (vertexAt [0, 0, 0, 1, 0, 0, 0, 1, 0] (3 * 0))
      (vertexAt [0, 0, 0, 1, 0, 0, 0, 1, 0] (3 * 0 + 1))
      (vertexAt [0, 0, 0, 1, 0, 0, 0, 1, 0] (3 * 0 + 2)) = true := by
    show ¬ backFaceCulled (Vec3.mk 0 0 0) (Vec3.mk 1 0 0) (Vec3.mk 0 1 0) = true
    norm_num [backFaceCulled, Vec3.cross, Vec3.sub, Vec3.normSq]
  have hcnt : 0 < sampleCount 1 2 (vertexAt [0, 0, 0, 1, 0, 0, 0, 1, 0] (3 * 0))
      (vertexAt [0, 0, 0, 1, 0, 0, 0, 1, 0] (3 * 0 + 1))
      (vertexAt [0, 0, 0, 1, 0, 0, 0, 1, 0] (3 * 0 + 2)) := by
    unfold sampleCount
    exact lt_min_iff.mpr ⟨by norm_num,
      lt_of_lt_of_le (by norm_num [MIN_SAMPLES]) (Nat.le_max_left _ _)⟩
  have hmem : (samplePoint (vertexAt [0, 0, 0, 1, 0, 0, 0, 1, 0] (3 * 0))
        (vertexAt [0, 0, 0, 1, 0, 0, 0, 1, 0] (3 * 0 + 1))
        (vertexAt [0, 0, 0, 1, 0, 0, 0, 1, 0] (3 * 0 + 2)) (1/2) (1/2),
      sampleUV [] 0 (1/2) (1/2))
      ∈ triangleParticles 1 2 [0, 0, 0, 1, 0, 0, 0, 1, 0] [] (fun _ _ => (1/2, 1/2)) 0 := by
    simp only [triangleParticles, if_neg hcf, List.mem_map]
    exact ⟨0, List.mem_range.mpr hcnt, trivial⟩
  obtain ⟨s, r2, hsr, heq, w1, w2, w3, w4, hbx, hby, hbz⟩ :=
    surface_samples_in_hull 1 2 [0, 0, 0, 1, 0, 0, 0, 1, 0] [] (fun _ _ => (1/2, 1/2)) 0
      (fun _ _ => ⟨by norm_num, by norm_num, by norm_num, by norm_num⟩) _ hmem
  exact ⟨hbx.1, hbx.2, hby.1, hby.2, hbz.1, hbz.2⟩

/-! Helper lemmas for the emissive-subset claim. -/

/-- Membership test on an initial segment of the naturals. -/
lemma range_contains_eq (m i : ℕ) : (List.range m).contains i = decide (i < m) := by
  show (List.range m).elem i = decide (i < m)
  by_cases h : i < m
  · have hm : i ∈ List.range m := List.mem_range.mpr h
    rw [List.elem_eq_true_of_mem hm, decide_eq_true h]
  · have hm : i ∉ List.range m := by simp [List.mem_range, h]
    rw [decide_eq_false h]
    exact Bool.eq_false_iff.mpr fun hcon => hm (List.mem_of_elem_eq_true hcon)

/-- Counting the emissive flags set by the generator body starting at
index `i` with the emissive index list `range m`. -/
lemma generateFrom_countP (m : ℕ) (rng : ℕ → ℚ) :
    ∀ (positions : List Vec3) (i : ℕ),
      (generateFrom positions (List.range m) rng i).countP (fun q => q.isEmissive)
        = min m (i + positions.length) - min m i := by
  intro positions
  induction positions with
  | nil => intro i; simp [generateFrom]
  | cons p rest ih =>
    intro i
    have hstep : (generateFrom (p :: rest) (List.range m) rng i).countP (fun q => q.isEmissive)
        = (generateFrom rest (List.range m) rng (i + 1)).countP (fun q => q.isEmissive)
          + if (List.range m).contains i then 1 else 0 := by
      simp [generateFrom, List.countP_cons]
    rw [hstep, ih (i + 1), range_contains_eq]
    by_cases h : i < m
    · rw [decide_eq_true h]
      simp only [if_true, List.length_cons]
      omega
    · rw [decide_eq_false h]
      simp only [Bool.false_eq_true, if_false, List.length_cons]
      omega

/-- C8: with the emissive index list produced by
`getEmissiveParticleIndices`, exactly `min(EMISSIVE_COUNT, N)` of the `N`
generated particles carry the `isEmissive` flag, and the per-frame update
never changes the flag. -/
theorem emissive_flag_bound (positions : List Vec3) (rng : ℕ → ℚ)
    (p : ParticleData) (animationSpeed : ℚ) :
    (generateInitialParticleData positions (getEmissiveParticleIndices positions.length)
        rng).countP (fun q => q.isEmissive) = min EMISSIVE_COUNT positions.length ∧
    (updateParticleFrame p animationSpeed).isEmissive = p.isEmissive := by
  constructor
  · unfold generateInitialParticleData getEmissiveParticleIndices
    rw [generateFrom_countP]
    omega
  · rfl

/-! Helper lemma for the life-interval claim. -/

/-- Every `life` value produced by the generator is one of the raw draws. -/
lemma generateFrom_life_exists (ems : List ℕ) (rng : ℕ → ℚ) :
    ∀ (positions : List Vec3) (i : ℕ) (q : ParticleData),
      q ∈ generateFrom positions ems rng i → ∃ n, q.life = rng n := by
  intro positions
  induction positions with
  | nil => intro i q hq; simp [generateFrom] at hq
  | cons p rest ih =>
    intro i q hq
    rw [generateFrom] at hq
    rcases List.mem_cons.mp hq with h | h
    · exact ⟨5 * i + 3, by rw [h]⟩
    · exact ih (i + 1) q h

/-- C9 (amended): `life` starts inside `[0,1)` (it is a raw uniform draw),
and the per-frame rule keeps it inside the closed interval `[0,1]`: the
wrap only fires for `life > 1`, so an increment landing exactly on `1`
leaves `life = 1` for that frame. -/
theorem life_interval_amended :
    (∀ (positions : List Vec3) (ems : List ℕ) (rng : ℕ → ℚ),
        (∀ n, 0 ≤ rng n ∧ rng n < 1) →
        ∀ q ∈ generateInitialParticleData positions ems rng, 0 ≤ q.life ∧ q.life < 1) ∧
    (∀ life speed : ℚ, 0 ≤ life → life ≤ 1 → 0 ≤ speed →
        0 ≤ updateLife life speed ∧ updateLife life speed ≤ 1) := by
  constructor
  · intro positions ems rng hrng q hq
    obtain ⟨n, hn⟩ := generateFrom_life_exists ems rng positions 0 q hq
    rw [hn]
    exact hrng n
  · intro life speed h0 h1 hs
    have hadd : 0 ≤ LIFECYCLE_SPEED * speed := by
      have : (0 : ℚ) ≤ LIFECYCLE_SPEED := by norm_num [LIFECYCLE_SPEED]
      exact mul_nonneg this hs
    unfold updateLife
    by_cases h : 1 < life + LIFECYCLE_SPEED * speed
    · simp only [if_pos h]
      exact ⟨le_refl 0, by norm_num⟩
    · simp only [if_neg h]
      push_neg at h
      exact ⟨by linarith, h⟩

/-- C9 witness: concrete instantiations of both parts. -/
theorem life_interval_amended_witness :
    (∀ q ∈ generateInitialParticleData [Vec3.mk 0 0 0] [] (fun _ => 1/2),
        0 ≤ q.life ∧ q.life < 1) ∧
    (0 ≤ updateLife (1/2) 3 ∧ updateLife (1/2) 3 ≤ 1) :=
  ⟨life_interval_amended.1 [Vec3.mk 0 0 0] [] (fun _ => 1/2)
      (fun _ => ⟨by norm_num, by norm_num⟩),
   life_interval_amended.2 (1/2) 3 (by norm_num) (by norm_num) (by norm_num)⟩

/-- C9 counterexample: starting at `life = 0.985` with `animationSpeed = 3`,
the increment lands exactly on `1.0`; the wrap condition `life > 1.0` does
not fire and the updated `life` is `1`, outside the claimed `[0,1)`. -/
theorem life_can_equal_one :
    updateLife (197/200) 3 = 1 ∧ ¬ updateLife (197/200) 3 < 1 := by
  have h : updateLife (197/200) 3 = 1 := by
    unfold updateLife
    norm_num [LIFECYCLE_SPEED]
  exact ⟨h, by rw [h]; exact lt_irrefl 1⟩

/-! Helper material for the model-cache claim. -/

/-- Invariant of clean traces (no clear, no failed load): each url has at
most one started load, and a url with a started load still has a cache
entry or an in-flight promise recorded. -/
def LoaderInv (s : LoaderState) : Prop :=
  ∀ u, s.loadsStarted u ≤ 1 ∧
    (s.loadsStarted u = 1 → s.modelCache u ≠ none ∨ s.loadingPromises u ≠ none)

lemma loaderInv_init : LoaderInv initLoaderState := by
  intro u
  simp [initLoaderState]

lemma loaderInv_step (s : LoaderState) (e : LoaderEvent) (hInv : LoaderInv s)
    (he : cleanEvent e = true) : LoaderInv (stepLoader s e) := by
  cases e with
  | call url =>
    show LoaderInv (loadModel url s).2
    unfold loadModel
    cases hc : s.modelCache url with
    | some g => exact hInv
    | none =>
      cases hl : s.loadingPromises url with
      | some p => exact hInv
      | none =>
        intro u
        by_cases hu : u = url
        · subst hu
          have h0 : s.loadsStarted u = 0 := by
            rcases Nat.lt_or_ge (s.loadsStarted u) 1 with h | h
            · omega
            · have h1 : s.loadsStarted u = 1 := le_antisymm (hInv u).1 h
              rcases (hInv u).2 h1 with hca | hlo
              · exact absurd hc hca
              · exact absurd hl hlo
          constructor
          · simp [h0]
          · intro _
            right
            simp
        · constructor
          · simpa [hu] using (hInv u).1
          · intro h1
            have h1' : s.loadsStarted u = 1 := by simpa [hu] using h1
            rcases (hInv u).2 h1' with hca | hlo
            · exact Or.inl hca
            · refine Or.inr ?_
              simpa [hu] using hlo
  | success url asset =>
    intro u
    refine ⟨(hInv u).1, fun h1 => ?_⟩
    by_cases hu : u = url
    · subst hu
      left
      simp [stepLoader, finishLoad]
    · have h1' : s.loadsStarted u = 1 := h1
      rcases (hInv u).2 h1' with hca | hlo
      · left
        simpa [stepLoader, finishLoad, hu] using hca
      · right
        simpa [stepLoader, finishLoad, hu] using hlo
  | failure url => simp [cleanEvent] at he
  | clear => simp [cleanEvent] at he

lemma loaderInv_run : ∀ (events : List LoaderEvent) (s : LoaderState),
    LoaderInv s → (∀ e ∈ events, cleanEvent e = true) →
    LoaderInv (events.foldl stepLoader s) := by
  intro events
  induction events with
  | nil => intro s h _; simpa using h
  | cons e rest ih =>
    intro s h hc
    simp only [List.foldl_cons]
    exact ih (stepLoader s e) (loaderInv_step s e h (hc e (List.mem_cons_self e rest)))
      fun x hx => hc x (List.mem_cons_of_mem e hx)

/-- C10 (amended): along any event trace with no cache clear and no failed
load, at most one underlying load is started per url; and an immediately
repeated `loadModel` call on the same url hands back the very same result
(the same cached asset or the same in-flight promise). -/
theorem loader_single_flight (events : List LoaderEvent) (url : ℕ) (s : LoaderState)
    (h : ∀ e ∈ events, cleanEvent e = true) :
    (runLoader events).loadsStarted url ≤ 1 ∧
    (loadModel url (loadModel url s).2).1 = (loadModel url s).1 := by
  constructor
  · exact (loaderInv_run events initLoaderState loaderInv_init h url).1
  · cases hc : s.modelCache url with
    | some g => simp [loadModel, hc]
    | none =>
      cases hl : s.loadingPromises url with
      | some p => simp [loadModel, hc, hl]
      | none => simp [loadModel, hc, hl]

/-- C10 witness: a concrete clean trace (call, success, call) and the
double-call identity from the initial state. -/
theorem loader_single_flight_witness :
    (runLoader [LoaderEvent.call 0, LoaderEvent.success 0 7,
        LoaderEvent.call 0]).loadsStarted 0 ≤ 1 ∧
    (loadModel 0 (loadModel 0 initLoaderState).2).1 = (loadModel 0 initLoaderState).1 :=
  loader_single_flight [LoaderEvent.call 0, LoaderEvent.success 0 7, LoaderEvent.call 0] 0
    initLoaderState (by decide)

/-- C10 counterexample: after a failed load (no cache clear involved), a
later request for the same url starts a second underlying load and gets a
different promise, so the per-url load count reaches `2`. -/
theorem failed_load_restarts :
    (runLoader [LoaderEvent.call 0, LoaderEvent.failure 0,
        LoaderEvent.call 0]).loadsStarted 0 = 2 ∧
    ¬ (runLoader [LoaderEvent.call 0, LoaderEvent.failure 0,
        LoaderEvent.call 0]).loadsStarted 0 ≤ 1 ∧
    (loadModel 0 initLoaderState).1 = LoadResult.pending 0 ∧
    (loadModel 0 (runLoader [LoaderEvent.call 0, LoaderEvent.failure 0])).1
      = LoadResult.pending 1 := by
  refine ⟨rfl, by decide, rfl, rfl⟩
